import Mathlib

/-!
Shallow embedding of the clawyard order-orchestration backend and proofs
about its admission pipeline.

The embedded code:
  - agent-verify.js   (verifyAgent)
  - payment.js        (verifyPayment, getPaymentAddress constants)
  - database.js       (orders table, createOrder, getOrder, getOrderByTxHash,
                       updateOrderStatus, updateOrderPrintful,
                       updateOrderAttestation, updateOrderTxHash)
  - server.js         (POST /api/order pipeline, GET /api/order/:id)

Currency amounts are JS numbers in the source; they are embedded as exact
rationals.  Every currency value that reaches an arithmetic operation in the
embedded paths is a two-decimal value (catalog prices, Joi-coerced shipping
costs, micro-USDC divided by 10^6), for which the rendered two-decimal
output of the exact computation coincides with the JS double computation.
-/

namespace Clawyard

set_option maxRecDepth 100000

/-- JSON-like values, for the dynamically typed row objects and response
bodies of the read path. -/
inductive JVal where
  | str (s : String)
  | num (q : ℚ)
  | null
  | arr (xs : List JVal)
  | obj (fields : List (String × JVal))

/-- Structured postal address (validation.js addressSchema fields). -/
structure Address where
  name : String
  company : String
  address1 : String
  address2 : String
  city : String
  state : String
  country : String
  zip : String
  phone : String
  email : String
deriving DecidableEq

/-- A priced order line item, as assembled by the pricing loop of the
POST /api/order route. -/
structure OrderItem where
  id : String
  name : String
  qty : ℕ
  price : ℚ
  total : ℚ
  printfulVariantId : Option ℤ
  imageUrl : Option String
deriving DecidableEq

/-- A row of the orders table (database.js createTables): id is the PRIMARY
KEY, tx_hash carries a partial UNIQUE index (WHERE tx_hash IS NOT NULL). -/
structure OrderRow where
  id : String
  wallet : String
  items : List OrderItem
  shippingAddress : Address
  totalUSDC : String
  txHash : Option String
  printfulOrderId : Option ℤ
  attestationUID : Option String
  agentId : Option String
  status : String
  createdAt : String
  updatedAt : String
deriving DecidableEq

/-- The orders table. -/
abbrev Ledger := List OrderRow

/-- SELECT id FROM orders WHERE tx_hash = ? (database.js getOrderByTxHash);
SQL equality never matches a NULL tx_hash. -/
def getOrderByTxHash (db : Ledger) (h : String) : Option OrderRow :=
  db.find? (fun o => o.txHash == some h)

/-- SELECT * FROM orders WHERE id = ? (database.js getOrder, row part). -/
def getOrder (db : Ledger) (oid : String) : Option OrderRow :=
  db.find? (fun o => o.id == oid)

/-- Storage-layer failure: better-sqlite3 raises on a violated UNIQUE
constraint and database.js re-throws it. -/
inductive DbErr where
  | constraintViolation
deriving DecidableEq

/-- The argument object of database.js createOrder (the id is generated
inside createOrder by uuidv4, modelled as the freshId argument below). -/
structure OrderDraft where
  wallet : String
  items : List OrderItem
  shippingAddress : Address
  totalUSDC : String
  agentId : Option String
  paymentTxHash : Option String
deriving DecidableEq

/-- JS truthiness on an optional string: missing and empty are falsy. -/
def jsStr (a : Option String) : Option String :=
  match a with
  | some s => if s = "" then none else some s
  | none => none

/-- JS a || b on optional strings. -/
def jsOrStr (a b : Option String) : Option String :=
  match jsStr a with
  | some s => some s
  | none => jsStr b

/-- The row written by database.js createOrder: status takes the schema
DEFAULT pending and the JS falsy-to-null coercions
(orderData.agentId || null, orderData.paymentTxHash || null) apply. -/
def newOrderRow (freshId : String) (d : OrderDraft) : OrderRow :=
  { id := freshId, wallet := d.wallet, items := d.items,
    shippingAddress := d.shippingAddress, totalUSDC := d.totalUSDC,
    txHash := jsStr d.paymentTxHash, printfulOrderId := none,
    attestationUID := none, agentId := jsStr d.agentId, status := "pending",
    createdAt := "", updatedAt := "" }

/-- database.js createOrder: a single INSERT of one row.  The INSERT either
commits the whole row or raises (PRIMARY KEY on id, partial UNIQUE index on
non-null tx_hash) and changes nothing; the raised error is re-thrown to the
caller. -/
def createOrder (db : Ledger) (freshId : String) (d : OrderDraft) :
    Except DbErr (String × Ledger) :=
  if db.any (fun o => o.id == freshId) = true then
    .error .constraintViolation
  else if (match jsStr d.paymentTxHash with
           | some h => (getOrderByTxHash db h).isSome
           | none => false) = true then
    .error .constraintViolation
  else
    .ok (freshId, db ++ [newOrderRow freshId d])

/-- UPDATE orders SET status = ?, updated_at = ... WHERE id = ?
(database.js updateOrderStatus). -/
def updateOrderStatus (db : Ledger) (oid st : String) : Ledger :=
  db.map (fun o => if o.id == oid then { o with status := st } else o)

/-- UPDATE orders SET printful_order_id = ? WHERE id = ?
(database.js updateOrderPrintful). -/
def updateOrderPrintful (db : Ledger) (oid : String) (pid : ℤ) : Ledger :=
  db.map (fun o => if o.id == oid then { o with printfulOrderId := some pid } else o)

/-- UPDATE orders SET attestation_uid = ? WHERE id = ?
(database.js updateOrderAttestation). -/
def updateOrderAttestation (db : Ledger) (oid uid : String) : Ledger :=
  db.map (fun o => if o.id == oid then { o with attestationUID := some uid } else o)

/-- UPDATE orders SET tx_hash = ?, status = paid WHERE id = ?
(database.js updateOrderTxHash); the partial UNIQUE index also guards
updates, so a duplicate non-null hash raises. -/
def updateOrderTxHash (db : Ledger) (oid h : String) : Except DbErr Ledger :=
  if db.any (fun o => !(o.id == oid) && (o.txHash == some h)) then
    .error .constraintViolation
  else
    .ok (db.map (fun o => if o.id == oid then { o with txHash := some h, status := "paid" } else o))

/-- USDC contract on Base (payment.js USDC_ADDRESS). -/
def USDC_ADDRESS : String := "0x833589fCD6eDb6E08f4c7C32D4f71b54bdA02913"

/-- USDC fixed decimal precision (payment.js USDC_DECIMALS). -/
def USDC_DECIMALS : ℕ := 6

/-- Storefront receiving wallet (payment.js CLAWYARD_WALLET default). -/
def CLAWYARD_WALLET : String := "0x80370645C98f05Ad86BdF676FaE54afCDBF5BC10"

/-- keccak256 of Transfer(address,address,uint256) (payment.js). -/
def TRANSFER_TOPIC : String :=
  "0xddf252ad1be2c89b69c2b068fc378daa952ba7f163c4a11628f55a4df523b3ef"

/-- An emitted log entry of a settlement receipt: emitting contract address,
topics, and the data word decoded as the raw uint256 (BigInt(log.data)). -/
structure LogEntry where
  address : String
  topics : List String
  data : ℕ
deriving DecidableEq

/-- A transaction settlement receipt as fetched from the chain client. -/
structure Receipt where
  success : Bool
  logs : List LogEntry
  blockNumber : ℕ
deriving DecidableEq

/-- JS String.prototype.toLowerCase on the ASCII identifiers of this
domain, implemented structurally over the character list. -/
def jsToLower (s : String) : String := String.mk (s.data.map Char.toLower)

/-- The JS 0x + topic.slice(26): a 32-byte topic carries an address in its
last 20 bytes. -/
def topicAddr (t : String) : String := "0x" ++ (t.drop 26)

/-- The scan predicate of payment.js: a Transfer event emitted by the USDC
contract whose to-topic is the storefront wallet.  A log with too few topics
throws inside the try block and is treated as non-matching; a wrong topic0
compares strict-unequal (also when topics[0] is undefined). -/
def isClawyardTransfer (l : LogEntry) : Bool :=
  (jsToLower l.address == jsToLower USDC_ADDRESS) &&
  (match l.topics[0]? with
   | some t0 => t0 == TRANSFER_TOPIC
   | none => false) &&
  (match l.topics[2]? with
   | some t2 => jsToLower (topicAddr t2) == jsToLower CLAWYARD_WALLET
   | none => false)

/-- Number.prototype.toFixed(2) for the nonnegative exact currency values of
this pipeline: round to the nearest cent (half up) and print two decimals. -/
def toFixed2 (q : ℚ) : String :=
  let m : ℚ := q * 100 + 1 / 2
  let n : ℕ := m.num.toNat / m.den
  toString (n / 100) ++ "." ++ (if n % 100 < 10 then "0" else "") ++ toString (n % 100)

/-- Result object of payment.js verifyPayment. -/
structure PayResult where
  verified : Bool
  errMsg : Option String
  payFrom : Option String
  amount : Option ℚ
  transactionHash : Option String
  blockNumber : Option ℕ
  timestamp : Option ℕ
deriving DecidableEq

/-- The all-absent failure shape of verifyPayment results. -/
def failPay (e : String) : PayResult :=
  { verified := false, errMsg := some e, payFrom := none, amount := none,
    transactionHash := none, blockNumber := none, timestamp := none }

/-- payment.js verifyPayment.  The receipts map models
client.getTransactionReceipt by transaction reference (a miss is reported as
not found); now models Date.now in seconds.  The transferred amount is
decoded with the fixed USDC precision and compared against
expectedAmountUSD with the asymmetric band: any amount below
expected * (1 - tolerancePercent / 100) is rejected, anything at or above
it (including arbitrary overpayment; maxAmount is computed but unused in
the source) is accepted.  The payer address is taken from topics[1] of the
matched Transfer event. -/
def verifyPayment (receipts : String → Option Receipt) (now : ℕ)
    (txHash : String) (expectedAmountUSD : ℚ) (tolerancePercent : ℚ) : PayResult :=
  match receipts txHash with
  | none => failPay "Transaction not found"
  | some receipt =>
    if receipt.success = false then failPay "Transaction failed"
    else
      match receipt.logs.find? isClawyardTransfer with
      | none => failPay "No USDC transfer to Clawyard wallet found in transaction"
      | some transferLog =>
        if (transferLog.data : ℚ) / ((10 : ℚ) ^ USDC_DECIMALS)
            < expectedAmountUSD * (1 - tolerancePercent / 100) then
          { verified := false,
            errMsg := some ("Insufficient payment: expected $" ++ toFixed2 expectedAmountUSD
                            ++ ", received $"
                            ++ toFixed2 ((transferLog.data : ℚ) / ((10 : ℚ) ^ USDC_DECIMALS))),
            payFrom := some (topicAddr ((transferLog.topics[1]?).getD "")),
            amount := some ((transferLog.data : ℚ) / ((10 : ℚ) ^ USDC_DECIMALS)),
            transactionHash := none, blockNumber := none, timestamp := none }
        else
          { verified := true, errMsg := none,
            payFrom := some (topicAddr ((transferLog.topics[1]?).getD "")),
            amount := some ((transferLog.data : ℚ) / ((10 : ℚ) ^ USDC_DECIMALS)),
            transactionHash := some txHash,
            blockNumber := some receipt.blockNumber,
            timestamp := some now }

/-- Outcome of the ERC-8004 registry ownerOf call as seen through the chain
client of agent-verify.js: an owner address, a revert classified by its
message as nonexistent token, or another failure with its message. -/
inductive RegistryResult where
  | owner (addr : String)
  | nonexistent
  | failure (msg : String)

/-- Result object of agent-verify.js verifyAgent. -/
structure AgentResult where
  verified : Bool
  errMsg : Option String
  agentId : Option String
  owner : Option String
deriving DecidableEq

/-- agent-verify.js verifyAgent: resolve the owner of the agent token and
compare it case-insensitively with the claimed wallet; on mismatch the
actual owner is disclosed in both the message and the owner field. -/
def verifyAgent (registry : String → RegistryResult) (agentId walletAddress : String) :
    AgentResult :=
  match registry agentId with
  | .owner ow =>
    if ow = "" then
      { verified := false,
        errMsg := some ("Agent #" ++ agentId ++ " not found in ERC-8004 registry"),
        agentId := none, owner := none }
    else if jsToLower ow = jsToLower walletAddress then
      { verified := true, errMsg := none, agentId := some agentId, owner := some ow }
    else
      { verified := false,
        errMsg := some ("Wallet " ++ walletAddress ++ " does not own agent #"
                        ++ agentId ++ ". Owner is " ++ ow ++ "."),
        agentId := none, owner := some ow }
  | .nonexistent =>
      { verified := false,
        errMsg := some ("Agent #" ++ agentId ++ " does not exist in ERC-8004 registry"),
        agentId := none, owner := none }
  | .failure m =>
      { verified := false, errMsg := some ("Verification failed: " ++ m),
        agentId := none, owner := none }

/-- A catalog entry (config/catalog.json as consumed by the route). -/
structure Sticker where
  id : String
  name : String
  basePrice : ℚ
  active : Bool
  printfulVariantId : Option ℤ
  image : Option String
deriving DecidableEq

/-- One requested line (validation.js stickerItemSchema). -/
structure StickerReq where
  id : String
  qty : ℕ
deriving DecidableEq

/-- The POST /api/order request after express parsing: the Joi-validated
body fields plus the two headers the route consults. -/
structure OrderReq where
  stickers : List StickerReq
  shippingAddress : Address
  agentId : Option String
  notes : Option String
  shippingMethod : String
  shippingCost : ℚ
  paymentTxHash : Option String
  payerWallet : Option String
  headerWallet : Option String
  headerPaymentTx : Option String
deriving DecidableEq

/-- Lowercase or uppercase hex digit. -/
def isHexDigit (c : Char) : Bool := c.isDigit || ("abcdefABCDEF".data.contains c)

/-- The 0x-prefixed 32-byte hash pattern of validation.js. -/
def validHexTx (s : String) : Bool :=
  s.length = 66 && (s.data.take 2 == ['0', 'x']) && (s.data.drop 2).all isHexDigit

/-- validation.js orderSchema on the typed request: the bounds and patterns
of the Joi schema (shape and type checks are absorbed by the typed parse;
addressSchema bounds are elided, spec section 1 places request-shape
validation out of scope).  Joi number().precision(2) coerces shippingCost
to a two-decimal value, captured by the denominator condition. -/
def validateOrderOk (r : OrderReq) : Bool :=
  decide (1 ≤ r.stickers.length) && decide (r.stickers.length ≤ 20) &&
  r.stickers.all (fun s =>
    decide (1 ≤ s.qty) && decide (s.qty ≤ 50) &&
    decide (1 ≤ s.id.length) && decide (s.id.length ≤ 100)) &&
  decide (0 ≤ r.shippingCost) && decide ((r.shippingCost * 100).den = 1) &&
  decide (1 ≤ r.shippingMethod.length) && decide (r.shippingMethod.length ≤ 100) &&
  (match r.paymentTxHash with | some h => validHexTx h | none => true) &&
  (match r.payerWallet with
   | some w => decide (w.length = 42) && (w.data.take 2 == ['0', 'x'])
   | none => true)

/-- External collaborators and per-request nondeterminism injected into the
route handler: the catalog, the identity registry, the chain receipts, the
clock, the uuid for this request, and the outcomes of the best-effort
Printful submission and EAS mint.  The Arweave uploads inside the EAS step
only shape the attestation document content (itemsRef / metadataRef) and
touch neither the ledger nor the response, so they are not represented. -/
structure Env where
  catalog : List Sticker
  registry : String → RegistryResult
  receipts : String → Option Receipt
  now : ℕ
  freshId : String
  printful : Except String ℤ
  eas : Except String String

/-- Payment summary echoed in the 201 body. -/
structure PaymentSummary where
  payFrom : String
  transactionHash : String
  timestamp : ℕ
deriving DecidableEq

/-- Body of a 201 response from POST /api/order. -/
structure CreatedBody where
  orderId : String
  printfulOrderId : Option ℤ
  attestationUID : Option String
  total : String
  items : List OrderItem
  status : String
  payment : PaymentSummary
deriving DecidableEq

/-- A response body: an error object or the created-order object. -/
inductive HBody where
  | errBody (error : String)
  | createdBody (c : CreatedBody)
deriving DecidableEq

/-- An HTTP response of the order route. -/
structure HResp where
  code : ℕ
  body : HBody
deriving DecidableEq

/-- Data carried from the hard gates of POST /api/order to its later steps:
the resolved agent id, the resolved claimed wallet, the verified owner, and
the resolved payment transaction reference. -/
structure PreCommit where
  agentId : String
  payerWallet : String
  owner : String
  ptx : Option String
deriving DecidableEq

/-- POST /api/order before the replay pre-check: Joi validation (400), the
agent-only gate (403), the wallet gate (400), and verifyAgent (403 on
failure, disclosing the verifier error).  The claimed wallet is
req.body.payerWallet || req.headers x-wallet and the payment reference is
req.body.paymentTxHash || req.headers x-payment-tx. -/
def beforeReplay (env : Env) (r : OrderReq) : Except HResp PreCommit :=
  if validateOrderOk r = false then
    .error ⟨400, .errBody "ValidationError: invalid request body"⟩
  else
    match jsStr r.agentId with
    | none => .error ⟨403, .errBody "Agent verification required"⟩
    | some aid =>
      match jsOrStr r.payerWallet r.headerWallet with
      | none => .error ⟨400, .errBody "Wallet address required"⟩
      | some pw =>
        if (verifyAgent env.registry aid pw).verified = true then
          .ok ⟨aid, pw, (verifyAgent env.registry aid pw).owner.getD "",
               jsOrStr r.paymentTxHash r.headerPaymentTx⟩
        else
          .error ⟨403, .errBody ("Agent verification failed: "
                                 ++ ((verifyAgent env.registry aid pw).errMsg.getD ""))⟩

/-- The pricing loop of POST /api/order: resolve each requested sticker in
the catalog in order, reject the first unknown or inactive id, and
accumulate basePrice * qty. -/
def computeItems (catalog : List Sticker) : List StickerReq → Except String (List OrderItem × ℚ)
  | [] => .ok ([], 0)
  | it :: rest =>
    match catalog.find? (fun s => s.id == it.id) with
    | none => .error it.id
    | some st =>
      if st.active = false then .error it.id
      else
        match computeItems catalog rest with
        | .error e => .error e
        | .ok (items, tot) =>
          let itemTotal := st.basePrice * (it.qty : ℚ)
          .ok ({ id := it.id, name := st.name, qty := it.qty, price := st.basePrice,
                 total := itemTotal,
                 printfulVariantId := st.printfulVariantId,
                 imageUrl := (jsStr st.image).map (fun im => "https://clawyard.dev" ++ im) } :: items,
               itemTotal + tot)

/-- Data ready for commit after all hard gates passed. -/
structure ReadyCommit where
  txHash : String
  agentId : String
  items : List OrderItem
  finalTotal : ℚ
  pay : PayResult
deriving DecidableEq

/-- POST /api/order between the replay pre-check and the commit: pricing
(400 on a bad sticker id), the caller-declared shipping cost added to the
item total, and verifyPayment with the default 1 percent tolerance (402 on
failure, disclosing the verifier message and the expected amount). -/
def afterReplay (env : Env) (r : OrderReq) (aid h : String) : Except HResp ReadyCommit :=
  match computeItems env.catalog r.stickers with
  | .error badId => .error ⟨400, .errBody ("Invalid sticker: " ++ badId)⟩
  | .ok (orderItems, total) =>
    if (verifyPayment env.receipts env.now h (total + r.shippingCost) 1).verified = true then
      .ok ⟨h, aid, orderItems, total + r.shippingCost,
           verifyPayment env.receipts env.now h (total + r.shippingCost) 1⟩
    else
      .error ⟨402, .errBody ("Payment verification failed: "
        ++ ((verifyPayment env.receipts env.now h (total + r.shippingCost) 1).errMsg.getD "")
        ++ " expectedAmount " ++ toFixed2 (total + r.shippingCost))⟩

/-- All hard gates of POST /api/order in source order: beforeReplay, then
the replay pre-check against the ledger (400 already-used), then the
missing-reference gate (402 payment instructions), then afterReplay. -/
def gatePhase (env : Env) (r : OrderReq) (db : Ledger) : Except HResp ReadyCommit :=
  match beforeReplay env r with
  | .error e => .error e
  | .ok pre =>
    match pre.ptx with
    | some h =>
      if (getOrderByTxHash db h).isSome = true then
        .error ⟨400, .errBody "This payment transaction has already been used for an order"⟩
      else afterReplay env r pre.agentId h
    | none => .error ⟨402, .errBody "Payment required"⟩

/-- The draft handed to db.createOrder by the route: the wallet is the
verifier-derived payer address and the stored reference is the
transactionHash field of the payment result. -/
def commitDraft (r : OrderReq) (k : ReadyCommit) : OrderDraft :=
  { wallet := k.pay.payFrom.getD "", items := k.items,
    shippingAddress := r.shippingAddress, totalUSDC := toFixed2 k.finalTotal,
    agentId := some k.agentId, paymentTxHash := k.pay.transactionHash }

/-- The ledger after the best-effort Printful step: success stores the
provider order id, failure records status printful_failed. -/
def afterPrintful (env : Env) (orderId : String) (db1 : Ledger) : Ledger :=
  match env.printful with
  | .ok pid => updateOrderPrintful db1 orderId pid
  | .error _ => updateOrderStatus db1 orderId "printful_failed"

/-- The ledger after the best-effort EAS step: success stores the
attestation reference, failure leaves it null. -/
def afterEas (env : Env) (orderId : String) (db2 : Ledger) : Ledger :=
  match env.eas with
  | .ok uid => updateOrderAttestation db2 orderId uid
  | .error _ => db2

/-- POST /api/order from the commit on: db.createOrder (a throw there lands
in the route catch-all as a 500 Order creation failed), then the
best-effort Printful submission (failure records status printful_failed and
continues) and the best-effort EAS mint (failure leaves the attestation
reference null), then the 201 response with the literal status pending. -/
def commitPhase (env : Env) (r : OrderReq) (k : ReadyCommit) (db : Ledger) :
    HResp × Ledger :=
  match createOrder db env.freshId (commitDraft r k) with
  | .error _ => (⟨500, .errBody "Order creation failed"⟩, db)
  | .ok (orderId, db1) =>
    (⟨201, .createdBody
      { orderId := orderId,
        printfulOrderId := (match env.printful with
                            | .ok pid => some pid | .error _ => none),
        attestationUID := (match env.eas with
                           | .ok uid => some uid | .error _ => none),
        total := toFixed2 k.finalTotal, items := k.items, status := "pending",
        payment := { payFrom := k.pay.payFrom.getD "",
                     transactionHash := k.pay.transactionHash.getD "",
                     timestamp := env.now } }⟩,
     afterEas env orderId (afterPrintful env orderId db1))

/-- POST /api/order (server.js): the admission pipeline on one request
against one ledger state. -/
def handleOrder (env : Env) (r : OrderReq) (db : Ledger) : HResp × Ledger :=
  match gatePhase env r db with
  | .error e => (e, db)
  | .ok k => commitPhase env r k db

/-- Two concurrent order requests interleaved at the await points the route
suspends on (spec section 5): both run their hard gates (including the
replay pre-check) against the same ledger snapshot, then their commits run
sequentially, the second seeing the ledger the first produced. -/
def raceSchedule (env1 : Env) (r1 : OrderReq) (env2 : Env) (r2 : OrderReq)
    (db0 : Ledger) : HResp × HResp × Ledger :=
  match gatePhase env1 r1 db0, gatePhase env2 r2 db0 with
  | .error e1, .error e2 => (e1, e2, db0)
  | .error e1, .ok k2 =>
    let s2 := commitPhase env2 r2 k2 db0
    (e1, s2.1, s2.2)
  | .ok k1, .error e2 =>
    let s1 := commitPhase env1 r1 k1 db0
    (s1.1, e2, s1.2)
  | .ok k1, .ok k2 =>
    let s1 := commitPhase env1 r1 k1 db0
    let s2 := commitPhase env2 r2 k2 s1.2
    (s1.1, s2.1, s2.2)

/-- JSON view of an optional string column. -/
def jstrOpt : Option String → JVal
  | some s => .str s
  | none => .null

/-- JSON view of a line item. -/
def itemToJson (it : OrderItem) : JVal :=
  .obj [("id", .str it.id), ("name", .str it.name), ("qty", .num it.qty),
        ("price", .num it.price), ("total", .num it.total),
        ("printfulVariantId", match it.printfulVariantId with
                              | some n => .num n | none => .null),
        ("imageUrl", jstrOpt it.imageUrl)]

/-- JSON view of an address. -/
def addrToJson (a : Address) : List (String × JVal) :=
  [("name", .str a.name), ("company", .str a.company),
   ("address1", .str a.address1), ("address2", .str a.address2),
   ("city", .str a.city), ("state", .str a.state),
   ("country", .str a.country), ("zip", .str a.zip),
   ("phone", .str a.phone), ("email", .str a.email)]

/-- The JS object returned by database.js getOrder for a found row, as
key-value pairs in source order.  There is no payerWallet key: the address
column is returned under the key wallet. -/
def orderToJson (o : OrderRow) : List (String × JVal) :=
  [("id", .str o.id), ("wallet", .str o.wallet),
   ("items", .arr (o.items.map itemToJson)),
   ("shippingAddress", .obj (addrToJson o.shippingAddress)),
   ("totalUSDC", .str o.totalUSDC),
   ("txHash", jstrOpt o.txHash),
   ("printfulOrderId", match o.printfulOrderId with
                       | some n => .num n | none => .null),
   ("attestationUID", jstrOpt o.attestationUID),
   ("agentId", jstrOpt o.agentId),
   ("status", .str o.status),
   ("createdAt", .str o.createdAt), ("updatedAt", .str o.updatedAt)]

/-- JS property read on an object literal: first binding of the key. -/
def jlookup (fs : List (String × JVal)) (k : String) : Option JVal :=
  (fs.find? (fun p => p.1 == k)).map Prod.snd

/-- JS rest-destructuring that drops one key. -/
def removeKey (fs : List (String × JVal)) (k : String) : List (String × JVal) :=
  fs.filter (fun p => !(p.1 == k))

/-- GET /api/order/:id (server.js): 404 when the row is absent; otherwise
the ownership gate compares the wallet query parameter (falsy values
rejected) case-insensitively against order.payerWallet, a key the getOrder
object does not contain, so the optional-chained toLowerCase yields
undefined and the strict inequality holds for every string; on a match the
shippingAddress key is stripped from the returned object. -/
def handleGetOrder (db : Ledger) (oid : String) (walletQ : Option String) :
    ℕ × List (String × JVal) :=
  match getOrder db oid with
  | none => (404, [("error", .str "Order not found")])
  | some o =>
    if (match jsStr walletQ with
        | none => false
        | some w =>
          match jlookup (orderToJson o) "payerWallet" with
          | some (.str p) => jsToLower w == jsToLower p
          | _ => false) = true then
      (200, removeKey (orderToJson o) "shippingAddress")
    else
      (403, [("error", .str "Wallet mismatch. Pass ?wallet=0x... matching the ordering wallet.")])

/-- The safety invariant of the orders table: PRIMARY KEY ids are pairwise
distinct and the partial UNIQUE index keeps non-null tx_hash values
pairwise distinct. -/
def ledgerInv (db : Ledger) : Prop :=
  List.Pairwise (fun a b : OrderRow =>
    a.id ≠ b.id ∧ ∀ h1 h2, a.txHash = some h1 → b.txHash = some h2 → h1 ≠ h2) db

/-- The uniqueness property in the shape stated by the spec: distinct
orders never share a non-null payment transaction reference. -/
def txUniq (db : Ledger) : Prop :=
  ∀ a ∈ db, ∀ b ∈ db, a.id ≠ b.id →
    ∀ h1 h2, a.txHash = some h1 → b.txHash = some h2 → h1 ≠ h2

/-! Concrete fixtures for witnesses and counterexamples. -/

/-- A catalog sticker priced 4.20. -/
def fixSticker : Sticker :=
  { id := "heartbeat-ok", name := "Heartbeat OK", basePrice := 4.20,
    active := true, printfulVariantId := some 10163,
    image := some "/images/heartbeat-ok.png" }

/-- The registered owner of agent 24212 in the fixture registry. -/
def fixOwner : String := "0xAAAABBBBCCCCDDDDEEEEFFFF0000111122223333"

/-- The wallet the fixture requests claim (lowercase form of the owner). -/
def fixClaimed : String := "0xaaaabbbbccccddddeeeeffff0000111122223333"

/-- The on-chain sender of the fixture transfer event. -/
def fixSender : String := "0x9999888877776666555544443333222211110000"

/-- The payment transaction reference of the fixture requests. -/
def fixTx : String :=
  "0xaaaaaaaaaaaaaaaaaaaaaaaaaaaaaaaaaaaaaaaaaaaaaaaaaaaaaaaaaaaaaaaa"

/-- A Transfer log of the USDC contract to the storefront wallet carrying
the raw amount micro. -/
def fixTransferLog (micro : ℕ) : LogEntry :=
  { address := USDC_ADDRESS,
    topics := [TRANSFER_TOPIC,
               "0x0000000000000000000000009999888877776666555544443333222211110000",
               "0x00000000000000000000000080370645C98f05Ad86BdF676FaE54afCDBF5BC10"],
    data := micro }

/-- A successful settlement receipt with one matching transfer of micro. -/
def fixReceipt (micro : ℕ) : Receipt :=
  { success := true, logs := [fixTransferLog micro], blockNumber := 12345 }

/-- The fixture registry: agent 24212 is owned by fixOwner, everything else
does not exist. -/
def fixRegistry : String → RegistryResult :=
  fun a => if a = "24212" then .owner fixOwner else .nonexistent

/-- The fixture chain: fixTx settled with a 7.92 USDC transfer. -/
def fixReceipts : String → Option Receipt :=
  fun h => if h = fixTx then some (fixReceipt 7920000) else none

/-- The fixture shipping address. -/
def fixAddr : Address :=
  { name := "My Human", company := "", address1 := "123 Main St",
    address2 := "", city := "Portland", state := "OR", country := "US",
    zip := "97201", phone := "", email := "" }

/-- A fully verifiable catalog order request: one 4.20 sticker, declared
shipping 3.72, agent 24212, claimed wallet fixClaimed, reference fixTx. -/
def fixReq : OrderReq :=
  { stickers := [{ id := "heartbeat-ok", qty := 1 }],
    shippingAddress := fixAddr, agentId := some "24212", notes := none,
    shippingMethod := "Flat Rate", shippingCost := 3.72,
    paymentTxHash := some fixTx, payerWallet := some fixClaimed,
    headerWallet := none, headerPaymentTx := none }

/-- The fixture environment for a request whose best-effort steps succeed. -/
def fixEnv : Env :=
  { catalog := [fixSticker], registry := fixRegistry, receipts := fixReceipts,
    now := 1700000000, freshId := "order-1", printful := .ok 555,
    eas := .ok "0xeas-uid-1" }

/-- The same environment for a second concurrent or subsequent request. -/
def fixEnv2 : Env :=
  { fixEnv with freshId := "order-2", printful := .ok 556, eas := .ok "0xeas-uid-2" }

/-- The fixture environment whose Printful submission rejects. -/
def fixEnvPfFail : Env :=
  { fixEnv with printful := .error "printful unreachable" }

/-- Three settled references for the tolerance instances: 9.90, 9.89 and
10.50 USDC delivered. -/
def tolReceipts : String → Option Receipt :=
  fun h =>
    if h = "0xa990" then some (fixReceipt 9900000)
    else if h = "0xa989" then some (fixReceipt 9890000)
    else if h = "0xa1050" then some (fixReceipt 10500000)
    else none

/-- The priced line item the pipeline computes for the fixture request. -/
def fixItem : OrderItem :=
  { id := "heartbeat-ok", name := "Heartbeat OK", qty := 1, price := 4.20,
    total := 4.20, printfulVariantId := some 10163,
    imageUrl := some "https://clawyard.dev/images/heartbeat-ok.png" }

/-- The ReadyCommit value the hard gates produce for the fixture request on
a ledger without fixTx. -/
def fixReady : ReadyCommit :=
  { txHash := fixTx, agentId := "24212", items := [fixItem], finalTotal := 7.92,
    pay := verifyPayment fixReceipts 1700000000 fixTx 7.92 1 }

/-- The fixture request with a claimed wallet that is not the registry
owner of agent 24212. -/
def fixReqWrongWallet : OrderReq :=
  { fixReq with payerWallet := some fixSender }

/-- The 201 body the pipeline produces for the fixture request on an empty
ledger. -/
def fixCreated : CreatedBody :=
  { orderId := "order-1", printfulOrderId := some 555,
    attestationUID := some "0xeas-uid-1", total := "7.92", items := [fixItem],
    status := "pending",
    payment := { payFrom := fixSender, transactionHash := fixTx,
                 timestamp := 1700000000 } }

/-- A value representable with two decimal places: one hundred times it is
an integer. -/
def twoDecimal (q : ℚ) : Prop := ∃ z : ℤ, q * 100 = (z : ℚ)

/-! Helper lemmas. -/

theorem jsStr_some {a : Option String} {s : String} (h : jsStr a = some s) :
    a = some s ∧ s ≠ "" := by
  unfold jsStr at h
  cases a with
  | none => cases h
  | some t =>
    have h2 : (if t = "" then (none : Option String) else some t) = some s := h
    by_cases ht : t = ""
    · rw [if_pos ht] at h2; cases h2
    · rw [if_neg ht] at h2
      cases h2
      exact ⟨rfl, ht⟩

theorem jsStr_some_of (s : String) (hs : s ≠ "") : jsStr (some s) = some s := by
  have h2 : jsStr (some s) = if s = "" then none else some s := rfl
  rw [h2, if_neg hs]

theorem jsOrStr_ne_empty {a b : Option String} {s : String}
    (h : jsOrStr a b = some s) : s ≠ "" := by
  unfold jsOrStr at h
  cases ha : jsStr a with
  | some t =>
    rw [ha] at h
    cases h
    exact (jsStr_some ha).2
  | none =>
    rw [ha] at h
    exact (jsStr_some h).2

theorem getOrderByTxHash_isSome_iff {db : Ledger} {h : String} :
    (getOrderByTxHash db h).isSome = true ↔ ∃ o ∈ db, o.txHash = some h := by
  unfold getOrderByTxHash
  rw [List.find?_isSome]
  constructor
  · rintro ⟨o, ho, hp⟩
    exact ⟨o, ho, by simpa using hp⟩
  · rintro ⟨o, ho, hp⟩
    exact ⟨o, ho, by simpa using hp⟩

theorem getOrderByTxHash_eq_none {db : Ledger} {h : String}
    (hn : ∀ o ∈ db, o.txHash ≠ some h) : (getOrderByTxHash db h).isSome = false := by
  cases hs : (getOrderByTxHash db h).isSome with
  | false => rfl
  | true =>
    obtain ⟨o, ho, hoh⟩ := getOrderByTxHash_isSome_iff.mp hs
    exact absurd hoh (hn o ho)

theorem verifyPayment_verified {rc : String → Option Receipt} {now : ℕ} {h : String}
    {exp tol : ℚ} (hv : (verifyPayment rc now h exp tol).verified = true) :
    ∃ receipt log, rc h = some receipt ∧ receipt.success = true ∧
      receipt.logs.find? isClawyardTransfer = some log ∧
      exp * (1 - tol / 100) ≤ (log.data : ℚ) / ((10 : ℚ) ^ USDC_DECIMALS) ∧
      verifyPayment rc now h exp tol =
        { verified := true, errMsg := none,
          payFrom := some (topicAddr ((log.topics[1]?).getD "")),
          amount := some ((log.data : ℚ) / ((10 : ℚ) ^ USDC_DECIMALS)),
          transactionHash := some h, blockNumber := some receipt.blockNumber,
          timestamp := some now } := by
  cases hr : rc h with
  | none => simp [verifyPayment, hr, failPay] at hv
  | some receipt =>
    by_cases hs : receipt.success = false
    · simp [verifyPayment, hr, if_pos hs, failPay] at hv
    · cases hl : receipt.logs.find? isClawyardTransfer with
      | none => simp [verifyPayment, hr, if_neg hs, hl, failPay] at hv
      | some log =>
        by_cases ha : (log.data : ℚ) / ((10 : ℚ) ^ USDC_DECIMALS)
            < exp * (1 - tol / 100)
        · simp [verifyPayment, hr, if_neg hs, hl, if_pos ha] at hv
        · refine ⟨receipt, log, rfl, ?_, hl, le_of_not_lt ha, ?_⟩
          · revert hs
            cases receipt.success <;> simp
          · simp only [verifyPayment, hr, if_neg hs, hl, if_neg ha]

theorem afterReplay_ok {env : Env} {r : OrderReq} {aid h : String} {k : ReadyCommit}
    (hk : afterReplay env r aid h = .ok k) :
    ∃ items tot, computeItems env.catalog r.stickers = .ok (items, tot) ∧
      k = ⟨h, aid, items, tot + r.shippingCost,
           verifyPayment env.receipts env.now h (tot + r.shippingCost) 1⟩ ∧
      (verifyPayment env.receipts env.now h (tot + r.shippingCost) 1).verified = true := by
  cases hc : computeItems env.catalog r.stickers with
  | error e => simp [afterReplay, hc] at hk
  | ok pr =>
    obtain ⟨items, tot⟩ := pr
    by_cases hv : (verifyPayment env.receipts env.now h (tot + r.shippingCost) 1).verified = true
    · simp only [afterReplay, hc, if_pos hv] at hk
      cases hk
      exact ⟨items, tot, rfl, rfl, hv⟩
    · simp [afterReplay, hc, if_neg hv] at hk

theorem beforeReplay_ok {env : Env} {r : OrderReq} {pre : PreCommit}
    (hb : beforeReplay env r = .ok pre) :
    validateOrderOk r = true ∧
    jsStr r.agentId = some pre.agentId ∧
    jsOrStr r.payerWallet r.headerWallet = some pre.payerWallet ∧
    (verifyAgent env.registry pre.agentId pre.payerWallet).verified = true ∧
    pre.owner = (verifyAgent env.registry pre.agentId pre.payerWallet).owner.getD "" ∧
    pre.ptx = jsOrStr r.paymentTxHash r.headerPaymentTx := by
  by_cases hval : validateOrderOk r = false
  · simp [beforeReplay, if_pos hval] at hb
  · cases hag : jsStr r.agentId with
    | none => simp [beforeReplay, if_neg hval, hag] at hb
    | some aid =>
      cases hpw : jsOrStr r.payerWallet r.headerWallet with
      | none => simp [beforeReplay, if_neg hval, hag, hpw] at hb
      | some pw =>
        by_cases hv : (verifyAgent env.registry aid pw).verified = true
        · simp only [beforeReplay, if_neg hval, hag, hpw, if_pos hv] at hb
          cases hb
          refine ⟨?_, rfl, rfl, hv, rfl, rfl⟩
          revert hval
          cases validateOrderOk r <;> simp
        · simp [beforeReplay, if_neg hval, hag, hpw, if_neg hv] at hb

theorem gatePhase_ok {env : Env} {r : OrderReq} {db : Ledger} {k : ReadyCommit}
    (hg : gatePhase env r db = .ok k) :
    ∃ pre, beforeReplay env r = .ok pre ∧ pre.ptx = some k.txHash ∧
      (getOrderByTxHash db k.txHash).isSome = false ∧
      afterReplay env r pre.agentId k.txHash = .ok k := by
  cases hb : beforeReplay env r with
  | error e => simp [gatePhase, hb] at hg
  | ok pre =>
    cases hp : pre.ptx with
    | none => simp [gatePhase, hb, hp] at hg
    | some h =>
      by_cases hs : (getOrderByTxHash db h).isSome = true
      · simp [gatePhase, hb, hp, if_pos hs] at hg
      · simp only [gatePhase, hb, hp, if_neg hs] at hg
        obtain ⟨items, tot, hc, hkeq, hv⟩ := afterReplay_ok hg
        have hkh : k.txHash = h := by rw [hkeq]
        rw [hkh]
        refine ⟨pre, rfl, hp, ?_, hg⟩
        revert hs
        cases (getOrderByTxHash db h).isSome <;> simp

theorem gatePhase_hit {env : Env} {r : OrderReq} {db : Ledger} {pre : PreCommit}
    {h : String} (hb : beforeReplay env r = .ok pre) (hp : pre.ptx = some h)
    (hs : (getOrderByTxHash db h).isSome = true) :
    gatePhase env r db =
      .error ⟨400, .errBody "This payment transaction has already been used for an order"⟩ := by
  simp only [gatePhase, hb, hp, if_pos hs]

theorem createOrder_ok_of {db : Ledger} {fid : String} {d : OrderDraft}
    (hid : ∀ o ∈ db, o.id ≠ fid)
    (htx : ∀ h, jsStr d.paymentTxHash = some h → (getOrderByTxHash db h).isSome = false) :
    createOrder db fid d = .ok (fid, db ++ [newOrderRow fid d]) := by
  unfold createOrder
  have h1 : ¬ (db.any (fun o => o.id == fid) = true) := by
    rw [List.any_eq_true]
    rintro ⟨o, ho, hP⟩
    exact hid o ho (by simpa using hP)
  rw [if_neg h1]
  have h2 : ¬ ((match jsStr d.paymentTxHash with
               | some h => (getOrderByTxHash db h).isSome
               | none => false) = true) := by
    cases hj : jsStr d.paymentTxHash with
    | none => simp
    | some h =>
      simp only
      rw [htx h hj]
      simp
  rw [if_neg h2]

theorem createOrder_error_of_tx {db : Ledger} {fid : String} {d : OrderDraft} {h : String}
    (htxd : jsStr d.paymentTxHash = some h)
    (hex : ∃ o ∈ db, o.txHash = some h) :
    createOrder db fid d = .error .constraintViolation := by
  unfold createOrder
  by_cases hid : db.any (fun o => o.id == fid) = true
  · rw [if_pos hid]
  · rw [if_neg hid]
    have h2 : (match jsStr d.paymentTxHash with
               | some h => (getOrderByTxHash db h).isSome
               | none => false) = true := by
      simp only [htxd]
      exact getOrderByTxHash_isSome_iff.mpr hex
    rw [if_pos h2]

theorem updateOrderStatus_track {db : Ledger} {o : OrderRow} (oid st : String)
    (ho : o ∈ db) :
    ∃ o2 ∈ updateOrderStatus db oid st,
      o2.id = o.id ∧ o2.txHash = o.txHash ∧ o2.wallet = o.wallet ∧
      o2.status = (if o.id = oid then st else o.status) := by
  refine ⟨(if o.id == oid then { o with status := st } else o),
          List.mem_map_of_mem _ ho, ?_, ?_, ?_, ?_⟩ <;>
    by_cases h : o.id = oid <;> simp [h]

theorem updateOrderPrintful_track {db : Ledger} {o : OrderRow} (oid : String) (pid : ℤ)
    (ho : o ∈ db) :
    ∃ o2 ∈ updateOrderPrintful db oid pid,
      o2.id = o.id ∧ o2.txHash = o.txHash ∧ o2.wallet = o.wallet ∧
      o2.status = o.status := by
  refine ⟨(if o.id == oid then { o with printfulOrderId := some pid } else o),
          List.mem_map_of_mem _ ho, ?_, ?_, ?_, ?_⟩ <;>
    by_cases h : o.id = oid <;> simp [h]

theorem updateOrderAttestation_track {db : Ledger} {o : OrderRow} (oid uid : String)
    (ho : o ∈ db) :
    ∃ o2 ∈ updateOrderAttestation db oid uid,
      o2.id = o.id ∧ o2.txHash = o.txHash ∧ o2.wallet = o.wallet ∧
      o2.status = o.status := by
  refine ⟨(if o.id == oid then { o with attestationUID := some uid } else o),
          List.mem_map_of_mem _ ho, ?_, ?_, ?_, ?_⟩ <;>
    by_cases h : o.id = oid <;> simp [h]

theorem afterPrintful_track {env : Env} {db : Ledger} {o : OrderRow} (oid : String)
    (ho : o ∈ db) :
    ∃ o2 ∈ afterPrintful env oid db,
      o2.id = o.id ∧ o2.txHash = o.txHash ∧ o2.wallet = o.wallet ∧
      o2.status = (match env.printful with
                   | .ok _ => o.status
                   | .error _ => if o.id = oid then "printful_failed" else o.status) := by
  unfold afterPrintful
  cases env.printful with
  | ok pid =>
    obtain ⟨o2, h2, ha, hb, hc, hd⟩ := updateOrderPrintful_track oid pid ho
    exact ⟨o2, h2, ha, hb, hc, hd⟩
  | error e =>
    obtain ⟨o2, h2, ha, hb, hc, hd⟩ := updateOrderStatus_track oid "printful_failed" ho
    exact ⟨o2, h2, ha, hb, hc, hd⟩

theorem afterEas_track {env : Env} {db : Ledger} {o : OrderRow} (oid : String)
    (ho : o ∈ db) :
    ∃ o2 ∈ afterEas env oid db,
      o2.id = o.id ∧ o2.txHash = o.txHash ∧ o2.wallet = o.wallet ∧
      o2.status = o.status := by
  unfold afterEas
  cases env.eas with
  | ok uid =>
    obtain ⟨o2, h2, ha, hb, hc, hd⟩ := updateOrderAttestation_track oid uid ho
    exact ⟨o2, h2, ha, hb, hc, hd⟩
  | error e => exact ⟨o, ho, rfl, rfl, rfl, rfl⟩

theorem commitPhase_success {env : Env} {r : OrderReq} {k : ReadyCommit} {db : Ledger}
    (hid : ∀ o ∈ db, o.id ≠ env.freshId)
    (htx : ∀ h, jsStr k.pay.transactionHash = some h →
                (getOrderByTxHash db h).isSome = false) :
    (commitPhase env r k db).1 =
      ⟨201, .createdBody
        { orderId := env.freshId,
          printfulOrderId := (match env.printful with
                              | .ok pid => some pid | .error _ => none),
          attestationUID := (match env.eas with
                             | .ok uid => some uid | .error _ => none),
          total := toFixed2 k.finalTotal, items := k.items, status := "pending",
          payment := { payFrom := k.pay.payFrom.getD "",
                       transactionHash := k.pay.transactionHash.getD "",
                       timestamp := env.now } }⟩ ∧
    ∃ o ∈ (commitPhase env r k db).2,
      o.id = env.freshId ∧ o.wallet = k.pay.payFrom.getD "" ∧
      o.txHash = jsStr k.pay.transactionHash ∧
      o.status = (match env.printful with
                  | .ok _ => "pending" | .error _ => "printful_failed") := by
  have hco : createOrder db env.freshId (commitDraft r k) =
      .ok (env.freshId, db ++ [newOrderRow env.freshId (commitDraft r k)]) :=
    createOrder_ok_of hid (fun h hh => htx h hh)
  constructor
  · simp only [commitPhase, hco]
  · simp only [commitPhase, hco]
    have hmem : newOrderRow env.freshId (commitDraft r k)
        ∈ db ++ [newOrderRow env.freshId (commitDraft r k)] := by simp
    obtain ⟨o1, ho1, hid1, htx1, hw1, hs1⟩ := afterPrintful_track env.freshId hmem
    obtain ⟨o2, ho2, hid2, htx2, hw2, hs2⟩ := afterEas_track env.freshId ho1
    refine ⟨o2, ho2, ?_, ?_, ?_, ?_⟩
    · rw [hid2, hid1]; rfl
    · rw [hw2, hw1]; simp [newOrderRow, commitDraft]
    · rw [htx2, htx1]; simp [newOrderRow, commitDraft]
    · rw [hs2, hs1]
      cases env.printful with
      | ok pid => rfl
      | error e => simp [newOrderRow]

theorem handleOrder_of_gate_ok {env : Env} {r : OrderReq} {db : Ledger}
    {k : ReadyCommit} (hg : gatePhase env r db = .ok k) :
    handleOrder env r db = commitPhase env r k db := by
  simp only [handleOrder, hg]

theorem handleOrder_of_gate_error {env : Env} {r : OrderReq} {db : Ledger}
    {e : HResp} (hg : gatePhase env r db = .error e) :
    handleOrder env r db = (e, db) := by
  simp only [handleOrder, hg]

theorem ledgerInv_map {db : Ledger} (f : OrderRow → OrderRow)
    (hf : ∀ o, (f o).id = o.id ∧ (f o).txHash = o.txHash)
    (hinv : ledgerInv db) : ledgerInv (db.map f) := by
  unfold ledgerInv at hinv ⊢
  refine List.Pairwise.map f ?_ hinv
  intro a b hab
  refine ⟨?_, ?_⟩
  · rw [(hf a).1, (hf b).1]; exact hab.1
  · intro h1 h2 e1 e2
    rw [(hf a).2] at e1
    rw [(hf b).2] at e2
    exact hab.2 h1 h2 e1 e2

theorem ledgerInv_updateOrderStatus {db : Ledger} {oid st : String}
    (h : ledgerInv db) : ledgerInv (updateOrderStatus db oid st) :=
  ledgerInv_map _ (fun o => by by_cases ho : o.id = oid <;> simp [ho]) h

theorem ledgerInv_updateOrderPrintful {db : Ledger} {oid : String} {pid : ℤ}
    (h : ledgerInv db) : ledgerInv (updateOrderPrintful db oid pid) :=
  ledgerInv_map _ (fun o => by by_cases ho : o.id = oid <;> simp [ho]) h

theorem ledgerInv_updateOrderAttestation {db : Ledger} {oid uid : String}
    (h : ledgerInv db) : ledgerInv (updateOrderAttestation db oid uid) :=
  ledgerInv_map _ (fun o => by by_cases ho : o.id = oid <;> simp [ho]) h

theorem ledgerInv_append {db : Ledger} {x : OrderRow} (hinv : ledgerInv db)
    (hid : ∀ o ∈ db, o.id ≠ x.id)
    (htx : ∀ o ∈ db, ∀ h1 h2, o.txHash = some h1 → x.txHash = some h2 → h1 ≠ h2) :
    ledgerInv (db ++ [x]) := by
  unfold ledgerInv at hinv ⊢
  rw [List.pairwise_append]
  refine ⟨hinv, by simp, ?_⟩
  intro a ha b hb
  simp only [List.mem_singleton] at hb
  subst hb
  exact ⟨hid a ha, htx a ha⟩

theorem ledgerInv_createOrder {db : Ledger} {fid : String} {d : OrderDraft}
    {oid : String} {db2 : Ledger} (hinv : ledgerInv db)
    (hc : createOrder db fid d = .ok (oid, db2)) : ledgerInv db2 := by
  unfold createOrder at hc
  by_cases h1 : db.any (fun o => o.id == fid) = true
  · rw [if_pos h1] at hc; cases hc
  · rw [if_neg h1] at hc
    by_cases h2 : (match jsStr d.paymentTxHash with
                   | some h => (getOrderByTxHash db h).isSome
                   | none => false) = true
    · rw [if_pos h2] at hc; cases hc
    · rw [if_neg h2] at hc
      cases hc
      refine ledgerInv_append hinv ?_ ?_
      · intro o ho heq
        apply h1
        rw [List.any_eq_true]
        refine ⟨o, ho, ?_⟩
        simp only [newOrderRow] at heq
        simpa using heq
      · intro o ho h1x h2x e1 e2 hne
        subst hne
        apply h2
        have hjs : jsStr d.paymentTxHash = some h1x := by
          simpa [newOrderRow] using e2
        simp only [hjs]
        exact getOrderByTxHash_isSome_iff.mpr ⟨o, ho, e1⟩

theorem ledgerInv_commitPhase {env : Env} {r : OrderReq} {k : ReadyCommit}
    {db : Ledger} (hinv : ledgerInv db) : ledgerInv (commitPhase env r k db).2 := by
  unfold commitPhase
  cases hc : createOrder db env.freshId (commitDraft r k) with
  | error e => exact hinv
  | ok p =>
    obtain ⟨oid, db1⟩ := p
    have h1 : ledgerInv db1 := ledgerInv_createOrder hinv hc
    have h2 : ledgerInv (afterPrintful env oid db1) := by
      unfold afterPrintful
      cases env.printful with
      | ok pid => exact ledgerInv_updateOrderPrintful h1
      | error e => exact ledgerInv_updateOrderStatus h1
    unfold afterEas
    cases env.eas with
    | ok uid => exact ledgerInv_updateOrderAttestation h2
    | error e => exact h2

theorem ledgerInv_handleOrder {env : Env} {r : OrderReq} {db : Ledger}
    (hinv : ledgerInv db) : ledgerInv (handleOrder env r db).2 := by
  unfold handleOrder
  cases hg : gatePhase env r db with
  | error e => exact hinv
  | ok k => exact ledgerInv_commitPhase hinv

theorem createOrder_ok_inv {db : Ledger} {fid : String} {d : OrderDraft}
    {p : String × Ledger} (hc : createOrder db fid d = .ok p) :
    p = (fid, db ++ [newOrderRow fid d]) ∧
    (∀ o ∈ db, o.id ≠ fid) ∧
    (∀ h, jsStr d.paymentTxHash = some h → (getOrderByTxHash db h).isSome = false) := by
  unfold createOrder at hc
  by_cases h1 : db.any (fun o => o.id == fid) = true
  · rw [if_pos h1] at hc; cases hc
  · rw [if_neg h1] at hc
    by_cases h2 : (match jsStr d.paymentTxHash with
                   | some h => (getOrderByTxHash db h).isSome
                   | none => false) = true
    · rw [if_pos h2] at hc; cases hc
    · rw [if_neg h2] at hc
      cases hc
      refine ⟨rfl, ?_, ?_⟩
      · intro o ho heq
        exact h1 (List.any_eq_true.mpr ⟨o, ho, by simpa using heq⟩)
      · intro h hj
        cases hs : (getOrderByTxHash db h).isSome with
        | false => rfl
        | true => exact absurd (by simp only [hj]; exact hs) h2

theorem beforeReplay_error_shape {env : Env} {r : OrderReq} {e : HResp}
    (hb : beforeReplay env r = .error e) : ∃ code m, e = ⟨code, .errBody m⟩ := by
  unfold beforeReplay at hb
  split at hb
  · cases hb; exact ⟨_, _, rfl⟩
  · split at hb
    · cases hb; exact ⟨_, _, rfl⟩
    · split at hb
      · cases hb; exact ⟨_, _, rfl⟩
      · split at hb
        · cases hb
        · cases hb; exact ⟨_, _, rfl⟩

theorem afterReplay_error_shape {env : Env} {r : OrderReq} {aid h : String} {e : HResp}
    (ha : afterReplay env r aid h = .error e) : ∃ code m, e = ⟨code, .errBody m⟩ := by
  unfold afterReplay at ha
  split at ha
  · cases ha; exact ⟨_, _, rfl⟩
  · split at ha
    · cases ha
    · cases ha; exact ⟨_, _, rfl⟩

theorem gatePhase_error_shape {env : Env} {r : OrderReq} {db : Ledger} {e : HResp}
    (hg : gatePhase env r db = .error e) : ∃ code m, e = ⟨code, .errBody m⟩ := by
  unfold gatePhase at hg
  cases hb : beforeReplay env r with
  | error e0 =>
    rw [hb] at hg
    cases hg
    exact beforeReplay_error_shape hb
  | ok pre =>
    rw [hb] at hg
    cases hp : pre.ptx with
    | none => simp only [hp] at hg; cases hg; exact ⟨_, _, rfl⟩
    | some h =>
      simp only [hp] at hg
      split at hg
      · cases hg; exact ⟨_, _, rfl⟩
      · exact afterReplay_error_shape hg

theorem handleOrder_created {env : Env} {r : OrderReq} {db : Ledger} {c : CreatedBody}
    (hc : (handleOrder env r db).1.body = .createdBody c) :
    ∃ k, gatePhase env r db = .ok k ∧
      handleOrder env r db = commitPhase env r k db ∧
      (∀ o ∈ db, o.id ≠ env.freshId) ∧
      (commitPhase env r k db).2 =
        afterEas env env.freshId
          (afterPrintful env env.freshId
            (db ++ [newOrderRow env.freshId (commitDraft r k)])) ∧
      c = { orderId := env.freshId,
            printfulOrderId := (match env.printful with
                                | .ok pid => some pid | .error _ => none),
            attestationUID := (match env.eas with
                               | .ok uid => some uid | .error _ => none),
            total := toFixed2 k.finalTotal, items := k.items, status := "pending",
            payment := { payFrom := k.pay.payFrom.getD "",
                         transactionHash := k.pay.transactionHash.getD "",
                         timestamp := env.now } } := by
  cases hg : gatePhase env r db with
  | error e =>
    rw [handleOrder_of_gate_error hg] at hc
    obtain ⟨code, m, hm⟩ := gatePhase_error_shape hg
    rw [hm] at hc
    cases hc
  | ok k =>
    rw [handleOrder_of_gate_ok hg] at hc
    cases hcc : createOrder db env.freshId (commitDraft r k) with
    | error err =>
      simp only [commitPhase, hcc] at hc
      cases hc
    | ok p =>
      obtain ⟨hp, hid, htx⟩ := createOrder_ok_inv hcc
      subst hp
      simp only [commitPhase, hcc] at hc
      cases hc
      refine ⟨k, rfl, handleOrder_of_gate_ok hg, hid, ?_, rfl⟩
      simp only [commitPhase, hcc]

theorem updateOrderStatus_mem_inv {db : Ledger} {oid st : String} {o2 : OrderRow}
    (h : o2 ∈ updateOrderStatus db oid st) :
    ∃ o ∈ db, o2.id = o.id ∧ o2.wallet = o.wallet ∧ o2.txHash = o.txHash := by
  obtain ⟨o, ho, rfl⟩ := List.mem_map.mp h
  refine ⟨o, ho, ?_, ?_, ?_⟩ <;> by_cases hc : o.id = oid <;> simp [hc]

theorem updateOrderPrintful_mem_inv {db : Ledger} {oid : String} {pid : ℤ}
    {o2 : OrderRow} (h : o2 ∈ updateOrderPrintful db oid pid) :
    ∃ o ∈ db, o2.id = o.id ∧ o2.wallet = o.wallet ∧ o2.txHash = o.txHash := by
  obtain ⟨o, ho, rfl⟩ := List.mem_map.mp h
  refine ⟨o, ho, ?_, ?_, ?_⟩ <;> by_cases hc : o.id = oid <;> simp [hc]

theorem updateOrderAttestation_mem_inv {db : Ledger} {oid uid : String}
    {o2 : OrderRow} (h : o2 ∈ updateOrderAttestation db oid uid) :
    ∃ o ∈ db, o2.id = o.id ∧ o2.wallet = o.wallet ∧ o2.txHash = o.txHash := by
  obtain ⟨o, ho, rfl⟩ := List.mem_map.mp h
  refine ⟨o, ho, ?_, ?_, ?_⟩ <;> by_cases hc : o.id = oid <;> simp [hc]

theorem afterPrintful_mem_inv {env : Env} {db : Ledger} {oid : String}
    {o2 : OrderRow} (h : o2 ∈ afterPrintful env oid db) :
    ∃ o ∈ db, o2.id = o.id ∧ o2.wallet = o.wallet ∧ o2.txHash = o.txHash := by
  unfold afterPrintful at h
  cases hp : env.printful with
  | ok pid =>
    simp only [hp] at h
    exact updateOrderPrintful_mem_inv h
  | error e =>
    simp only [hp] at h
    exact updateOrderStatus_mem_inv h

theorem afterEas_mem_inv {env : Env} {db : Ledger} {oid : String}
    {o2 : OrderRow} (h : o2 ∈ afterEas env oid db) :
    ∃ o ∈ db, o2.id = o.id ∧ o2.wallet = o.wallet ∧ o2.txHash = o.txHash := by
  unfold afterEas at h
  cases hp : env.eas with
  | ok uid =>
    simp only [hp] at h
    exact updateOrderAttestation_mem_inv h
  | error e =>
    simp only [hp] at h
    exact ⟨o2, h, rfl, rfl, rfl⟩

theorem jlookup_removeKey (fs : List (String × JVal)) (k : String) :
    jlookup (removeKey fs k) k = none := by
  unfold jlookup
  cases hf : (removeKey fs k).find? (fun p => p.1 == k) with
  | none => rfl
  | some p =>
    have hp := List.find?_some hf
    have hmem := List.mem_of_find?_eq_some hf
    unfold removeKey at hmem
    rw [List.mem_filter] at hmem
    simp [hp] at hmem

theorem txUniq_of_ledgerInv {db : Ledger} (h : ledgerInv db) : txUniq db := by
  intro a ha b hb hne h1 h2 e1 e2
  have hsymm : Symmetric (fun a b : OrderRow =>
      a.id ≠ b.id ∧ ∀ h1 h2, a.txHash = some h1 → b.txHash = some h2 → h1 ≠ h2) := by
    intro x y hxy
    exact ⟨hxy.1.symm, fun u v eu ev => (hxy.2 v u ev eu).symm⟩
  have hab := List.Pairwise.forall hsymm h ha hb (fun hxy => hne (by rw [hxy]))
  exact hab.2 h1 h2 e1 e2

theorem gatePhase_ok_pay {env : Env} {r : OrderReq} {db : Ledger} {k : ReadyCommit}
    (hg : gatePhase env r db = .ok k) :
    k.pay.verified = true ∧
    k.pay.transactionHash = some k.txHash ∧
    k.txHash ≠ "" ∧
    jsStr k.pay.transactionHash = some k.txHash ∧
    (getOrderByTxHash db k.txHash).isSome = false ∧
    jsOrStr r.paymentTxHash r.headerPaymentTx = some k.txHash ∧
    ∃ receipt log, env.receipts k.txHash = some receipt ∧ receipt.success = true ∧
      receipt.logs.find? isClawyardTransfer = some log ∧
      k.pay.payFrom = some (topicAddr ((log.topics[1]?).getD "")) := by
  obtain ⟨pre, hb, hp, hns, ha⟩ := gatePhase_ok hg
  obtain ⟨hval, hag, hpw, hva, hown, hptx⟩ := beforeReplay_ok hb
  have hjsor : jsOrStr r.paymentTxHash r.headerPaymentTx = some k.txHash := by
    rw [← hptx]
    exact hp
  have hne : k.txHash ≠ "" := jsOrStr_ne_empty hjsor
  obtain ⟨items, tot, hc, hkeq, hv⟩ := afterReplay_ok ha
  have hkpay : k.pay = verifyPayment env.receipts env.now k.txHash k.finalTotal 1 := by
    rw [hkeq]
  have hv2 : (verifyPayment env.receipts env.now k.txHash k.finalTotal 1).verified = true := by
    rw [← hkpay]
    rw [hkeq]
    exact hv
  obtain ⟨receipt, log, hr, hsu, hl, hge, heq⟩ := verifyPayment_verified hv2
  rw [heq] at hkpay
  refine ⟨?_, ?_, hne, ?_, hns, hjsor, receipt, log, hr, hsu, hl, ?_⟩
  · rw [hkpay]
  · rw [hkpay]
  · rw [hkpay]
    exact jsStr_some_of k.txHash hne
  · rw [hkpay]

/-! Claim theorems. -/

/-- C5: PII isolation: for every ledger state, order id and caller-supplied
wallet query value (including the correct owning wallet), the body of the
GET /api/order/:id response never contains a shippingAddress field. -/
theorem pii_isolation_no_shipping_address :
    ∀ db oid walletQ,
      jlookup (handleGetOrder db oid walletQ).2 "shippingAddress" = none := by
  intro db oid walletQ
  cases hg : getOrder db oid with
  | none =>
    simp only [handleGetOrder, hg]
    rfl
  | some o =>
    simp only [handleGetOrder, hg]
    split
    · exact jlookup_removeKey _ _
    · rfl

/-- C10: implicit claim: for every order stored in the ledger and every
value of the wallet query parameter, GET /api/order/:id responds 403 with
only the wallet-mismatch error body, because the ownership gate reads the
payerWallet key, which the object built by getOrder never contains (the
address is returned under the key wallet), so no caller ever receives the
order body. -/
theorem order_lookup_always_403 :
    ∀ db oid wq o, getOrder db oid = some o →
      (handleGetOrder db oid wq).1 = 403 ∧
      (handleGetOrder db oid wq).2 =
        [("error", JVal.str "Wallet mismatch. Pass ?wallet=0x... matching the ordering wallet.")] ∧
      jlookup (orderToJson o) "payerWallet" = none := by
  intro db oid wq o hfound
  have hpw : jlookup (orderToJson o) "payerWallet" = none := rfl
  have hcond : (match jsStr wq with
      | none => false
      | some w =>
        (match jlookup (orderToJson o) "payerWallet" with
         | some (.str p) => jsToLower w == jsToLower p
         | _ => false)) = false := by
    cases jsStr wq with
    | none => rfl
    | some w => rw [hpw]
  have hcond2 : ¬ ((match jsStr wq with
      | none => false
      | some w =>
        (match jlookup (orderToJson o) "payerWallet" with
         | some (.str p) => jsToLower w == jsToLower p
         | _ => false)) = true) := by
    rw [hcond]
    simp
  refine ⟨?_, ?_, hpw⟩ <;>
    simp only [handleGetOrder, hfound, if_neg hcond2]

/-- Witness for C10 on the ledger produced by the fixture run, queried with
the correct owning wallet. -/
theorem order_lookup_always_403_witness :
    (handleGetOrder (handleOrder fixEnv fixReq []).2 "order-1" (some fixSender)).1 = 403 ∧
    (handleGetOrder (handleOrder fixEnv fixReq []).2 "order-1" (some fixSender)).2 =
      [("error", JVal.str "Wallet mismatch. Pass ?wallet=0x... matching the ordering wallet.")] ∧
    jlookup (orderToJson { newOrderRow "order-1" (commitDraft fixReq fixReady) with
      printfulOrderId := some 555, attestationUID := some "0xeas-uid-1" }) "payerWallet" = none :=
  order_lookup_always_403 (handleOrder fixEnv fixReq []).2 "order-1" (some fixSender)
    { newOrderRow "order-1" (commitDraft fixReq fixReady) with
      printfulOrderId := some 555, attestationUID := some "0xeas-uid-1" }
    (by with_unfolding_all rfl)

/-- C4: verifyPayment accepts a delivered amount iff it is at least
expectedAmount * (1 - tolerancePercent / 100) (arbitrary overpayment
accepted); on rejection both expected and actual amounts are disclosed in
the error; for expectedAmount 10.00 and tolerance 1 percent, a delivered
9.90 verifies, 9.89 does not, and 10.50 verifies. -/
theorem amount_tolerance_band :
    (∀ rc now h exp tol receipt log, rc h = some receipt → receipt.success = true →
      receipt.logs.find? isClawyardTransfer = some log →
      ((verifyPayment rc now h exp tol).verified = true ↔
        exp * (1 - tol / 100) ≤ (log.data : ℚ) / ((10 : ℚ) ^ USDC_DECIMALS))) ∧
    (∀ rc now h exp tol receipt log, rc h = some receipt → receipt.success = true →
      receipt.logs.find? isClawyardTransfer = some log →
      (log.data : ℚ) / ((10 : ℚ) ^ USDC_DECIMALS) < exp * (1 - tol / 100) →
      (verifyPayment rc now h exp tol).errMsg =
        some ("Insufficient payment: expected $" ++ toFixed2 exp ++ ", received $"
              ++ toFixed2 ((log.data : ℚ) / ((10 : ℚ) ^ USDC_DECIMALS)))) ∧
    (verifyPayment tolReceipts 0 "0xa990" 10 1).verified = true ∧
    (verifyPayment tolReceipts 0 "0xa989" 10 1).verified = false ∧
    (verifyPayment tolReceipts 0 "0xa1050" 10 1).verified = true := by
  refine ⟨?_, ?_, ?_, ?_, ?_⟩
  · intro rc now h exp tol receipt log hr hsu hl
    constructor
    · intro hv
      obtain ⟨receipt2, log2, hr2, _, hl2, hge, _⟩ := verifyPayment_verified hv
      rw [hr] at hr2
      cases hr2
      rw [hl] at hl2
      cases hl2
      exact hge
    · intro hge
      have hns : ¬ (receipt.success = false) := by
        rw [hsu]
        simp
      have hnlt : ¬ ((log.data : ℚ) / ((10 : ℚ) ^ USDC_DECIMALS)
          < exp * (1 - tol / 100)) := not_lt.mpr hge
      simp only [verifyPayment, hr, if_neg hns, hl, if_neg hnlt]
  · intro rc now h exp tol receipt log hr hsu hl hlt
    have hns : ¬ (receipt.success = false) := by
      rw [hsu]
      simp
    simp only [verifyPayment, hr, if_neg hns, hl, if_pos hlt]
  · with_unfolding_all rfl
  · with_unfolding_all rfl
  · with_unfolding_all rfl

/-- Witness for C4 at the 9.90 fixture receipt: the acceptance criterion is
exactly the tolerance band. -/
theorem amount_tolerance_band_witness :
    (verifyPayment tolReceipts 0 "0xa990" 10 1).verified = true ↔
      (10 : ℚ) * (1 - 1 / 100) ≤ ((fixTransferLog 9900000).data : ℚ) / ((10 : ℚ) ^ USDC_DECIMALS) :=
  amount_tolerance_band.1 tolReceipts 0 "0xa990" 10 1 (fixReceipt 9900000)
    (fixTransferLog 9900000) (by with_unfolding_all rfl) rfl rfl

/-- C6: identity verification is fail-closed and case-insensitive:
verifyAgent verifies exactly when the registry resolves an owner equal to
the claimed wallet up to letter case; on mismatch it fails with the actual
owner disclosed; and the order pipeline rejects any request whose claimed
wallet is not the resolved owner with 403 and no ledger change, whatever
the payment environment would verify. -/
theorem identity_fail_closed :
    (∀ reg a w, (verifyAgent reg a w).verified = true ↔
      ∃ ow, reg a = .owner ow ∧ ow ≠ "" ∧ jsToLower ow = jsToLower w) ∧
    (∀ reg a w ow, reg a = .owner ow → ow ≠ "" → jsToLower ow ≠ jsToLower w →
      (verifyAgent reg a w).verified = false ∧
      (verifyAgent reg a w).owner = some ow ∧
      (verifyAgent reg a w).errMsg =
        some ("Wallet " ++ w ++ " does not own agent #" ++ a ++ ". Owner is " ++ ow ++ ".")) ∧
    (∀ env r db aid pw ow, validateOrderOk r = true →
      jsStr r.agentId = some aid →
      jsOrStr r.payerWallet r.headerWallet = some pw →
      env.registry aid = .owner ow → jsToLower ow ≠ jsToLower pw →
      (handleOrder env r db).1.code = 403 ∧ (handleOrder env r db).2 = db) := by
  refine ⟨?_, ?_, ?_⟩
  · intro reg a w
    cases hro : reg a with
    | owner ow =>
      by_cases hemp : ow = ""
      · simp only [verifyAgent, hro, if_pos hemp]
        constructor
        · intro hv
          cases hv
        · rintro ⟨ow2, heq, hne2, _⟩
          cases heq
          exact absurd hemp hne2
      · by_cases hltc : jsToLower ow = jsToLower w
        · simp only [verifyAgent, hro, if_neg hemp, if_pos hltc]
          exact ⟨fun _ => ⟨ow, rfl, hemp, hltc⟩, fun _ => trivial⟩
        · simp only [verifyAgent, hro, if_neg hemp, if_neg hltc]
          constructor
          · intro hv
            cases hv
          · rintro ⟨ow2, heq, _, hl2⟩
            cases heq
            exact absurd hl2 hltc
    | nonexistent =>
      simp only [verifyAgent, hro]
      constructor
      · intro hv
        cases hv
      · rintro ⟨ow2, heq, _, _⟩
        cases heq
    | failure m =>
      simp only [verifyAgent, hro]
      constructor
      · intro hv
        cases hv
      · rintro ⟨ow2, heq, _, _⟩
        cases heq
  · intro reg a w ow hro hemp hltc
    simp [verifyAgent, hro, if_neg hemp, if_neg hltc]
  · intro env r db aid pw ow hval hag hpw hro hltc
    have hvf : (verifyAgent env.registry aid pw).verified = false := by
      by_cases hemp : ow = ""
      · simp only [verifyAgent, hro, if_pos hemp]
      · simp only [verifyAgent, hro, if_neg hemp, if_neg hltc]
    have hnv : ¬ ((verifyAgent env.registry aid pw).verified = true) := by
      rw [hvf]
      simp
    have hnval : ¬ (validateOrderOk r = false) := by
      rw [hval]
      simp
    have hbr : beforeReplay env r = .error ⟨403, .errBody ("Agent verification failed: "
        ++ ((verifyAgent env.registry aid pw).errMsg.getD ""))⟩ := by
      unfold beforeReplay
      rw [if_neg hnval]
      simp only [hag, hpw]
      rw [if_neg hnv]
    have hge : gatePhase env r db = .error ⟨403, .errBody ("Agent verification failed: "
        ++ ((verifyAgent env.registry aid pw).errMsg.getD ""))⟩ := by
      simp only [gatePhase, hbr]
    rw [handleOrder_of_gate_error hge]
    exact ⟨rfl, rfl⟩

/-- Witness for C6 at the fixtures: a request claiming the transfer sender
wallet, which does not own agent 24212, is rejected with 403 and no ledger
change. -/
theorem identity_fail_closed_witness :
    (handleOrder fixEnv fixReqWrongWallet []).1.code = 403 ∧
    (handleOrder fixEnv fixReqWrongWallet []).2 = [] :=
  identity_fail_closed.2.2 fixEnv fixReqWrongWallet [] "24212" fixSender fixOwner
    (by with_unfolding_all rfl) (by with_unfolding_all rfl) (by with_unfolding_all rfl)
    (by with_unfolding_all rfl) (by with_unfolding_all decide)

/-- C7 counterexample: on a fully verifiable fixture request whose Printful
submission rejects, the order is created and answered 201, but its recorded
status is the literal printful_failed — no row ever carries the status
fulfillment_failed that the claim names. -/
theorem fulfillment_failed_status_cex :
    (handleOrder fixEnvPfFail fixReq []).1.code = 201 ∧
    (handleOrder fixEnvPfFail fixReq []).2.map OrderRow.status = ["printful_failed"] ∧
    (∀ o ∈ (handleOrder fixEnvPfFail fixReq []).2, o.status ≠ "fulfillment_failed") ∧
    "printful_failed" ≠ "fulfillment_failed" := by
  refine ⟨by with_unfolding_all rfl, by with_unfolding_all rfl, ?_, by decide⟩
  intro o ho
  have hmap : (handleOrder fixEnvPfFail fixReq []).2.map OrderRow.status
      = ["printful_failed"] := by with_unfolding_all rfl
  have hm : o.status ∈ (handleOrder fixEnvPfFail fixReq []).2.map OrderRow.status :=
    List.mem_map_of_mem _ ho
  rw [hmap] at hm
  simp only [List.mem_singleton] at hm
  rw [hm]
  decide

/-- C7 amended: if fulfillment submission rejects after the order has been
committed, the order is still created and persisted, its id is still
returned with a 201 response (never a 500), and its persisted status is the
failure marker printful_failed (the code's name for the fulfillment-failed
state); payment and order existence are not rolled back. -/
theorem fulfillment_failure_preserves_order :
    ∀ env r db k e, gatePhase env r db = .ok k → env.printful = .error e →
      (∀ o ∈ db, o.id ≠ env.freshId) →
      (handleOrder env r db).1.code = 201 ∧
      (handleOrder env r db).1.code ≠ 500 ∧
      (∃ c, (handleOrder env r db).1.body = .createdBody c ∧ c.orderId = env.freshId) ∧
      (∃ o ∈ (handleOrder env r db).2, o.id = env.freshId ∧
        o.status = "printful_failed" ∧ o.txHash = some k.txHash) := by
  intro env r db k e hg hpf hfresh
  obtain ⟨hv, htx, hne, hjs, hns, hjsor, _⟩ := gatePhase_ok_pay hg
  have htxcond : ∀ h, jsStr k.pay.transactionHash = some h →
      (getOrderByTxHash db h).isSome = false := by
    intro h hh
    rw [hjs] at hh
    cases hh
    exact hns
  obtain ⟨hresp, o, ho, hoid, how, hotx, host⟩ := commitPhase_success hfresh htxcond
  have hho : handleOrder env r db = commitPhase env r k db := handleOrder_of_gate_ok hg
  refine ⟨?_, ?_, ?_, ?_⟩
  · rw [hho, hresp]
  · rw [hho, hresp]
    show (201 : ℕ) ≠ 500
    decide
  · rw [hho, hresp]
    exact ⟨_, rfl, rfl⟩
  · refine ⟨o, by rw [hho]; exact ho, hoid, ?_, ?_⟩
    · rw [host]
      simp only [hpf]
    · rw [hotx, hjs]

/-- Witness for C7 at the fixtures with a rejecting Printful submitter. -/
theorem fulfillment_failure_preserves_order_witness :
    (handleOrder fixEnvPfFail fixReq []).1.code = 201 ∧
    (handleOrder fixEnvPfFail fixReq []).1.code ≠ 500 ∧
    (∃ c, (handleOrder fixEnvPfFail fixReq []).1.body = .createdBody c ∧
      c.orderId = fixEnvPfFail.freshId) ∧
    (∃ o ∈ (handleOrder fixEnvPfFail fixReq []).2, o.id = fixEnvPfFail.freshId ∧
      o.status = "printful_failed" ∧ o.txHash = some fixReady.txHash) :=
  fulfillment_failure_preserves_order fixEnvPfFail fixReq [] fixReady
    "printful unreachable" (by with_unfolding_all rfl) rfl (by intro o ho; cases ho)

/-- C8 counterexample: after a successful fixture commit the persisted
status and the 201 response status are both the literal pending, not paid
and not fulfilled. -/
theorem commit_status_paid_cex :
    (handleOrder fixEnv fixReq []).1.code = 201 ∧
    (handleOrder fixEnv fixReq []).2.map OrderRow.status = ["pending"] ∧
    (∃ c, (handleOrder fixEnv fixReq []).1.body = .createdBody c ∧ c.status = "pending") ∧
    "pending" ≠ "paid" ∧ "pending" ≠ "fulfilled" := by
  refine ⟨by with_unfolding_all rfl, by with_unfolding_all rfl, ?_, by decide, by decide⟩
  exact ⟨fixCreated, by with_unfolding_all rfl, rfl⟩

/-- C8 amended: after a successful commit the persisted order's status is
the schema default pending (described by the data model as post-payment,
pre-fulfillment) and the 201 response reports status pending; within the
pipeline the status moves only from pending to printful_failed when the
fulfillment submission fails, and the paid status is set only by
updateOrderTxHash, which this pipeline never calls. -/
theorem commit_status_pending :
    ∀ env r db k, gatePhase env r db = .ok k →
      (∀ o ∈ db, o.id ≠ env.freshId) →
      (handleOrder env r db).1.code = 201 ∧
      (∃ c, (handleOrder env r db).1.body = .createdBody c ∧ c.status = "pending") ∧
      (∃ o ∈ (handleOrder env r db).2, o.id = env.freshId ∧
        o.status = (match env.printful with
                    | .ok _ => "pending" | .error _ => "printful_failed")) := by
  intro env r db k hg hfresh
  obtain ⟨hv, htx, hne, hjs, hns, hjsor, _⟩ := gatePhase_ok_pay hg
  have htxcond : ∀ h, jsStr k.pay.transactionHash = some h →
      (getOrderByTxHash db h).isSome = false := by
    intro h hh
    rw [hjs] at hh
    cases hh
    exact hns
  obtain ⟨hresp, o, ho, hoid, how, hotx, host⟩ := commitPhase_success hfresh htxcond
  have hho : handleOrder env r db = commitPhase env r k db := handleOrder_of_gate_ok hg
  refine ⟨?_, ?_, ?_⟩
  · rw [hho, hresp]
  · rw [hho, hresp]
    exact ⟨_, rfl, rfl⟩
  · exact ⟨o, by rw [hho]; exact ho, hoid, host⟩

/-- Witness for C8 at the fixtures with a succeeding Printful submitter. -/
theorem commit_status_pending_witness :
    (handleOrder fixEnv fixReq []).1.code = 201 ∧
    (∃ c, (handleOrder fixEnv fixReq []).1.body = .createdBody c ∧ c.status = "pending") ∧
    (∃ o ∈ (handleOrder fixEnv fixReq []).2, o.id = fixEnv.freshId ∧
      o.status = (match fixEnv.printful with
                  | .ok _ => "pending" | .error _ => "printful_failed")) :=
  commit_status_pending fixEnv fixReq [] fixReady (by with_unfolding_all rfl)
    (by intro o ho; cases ho)

/-- C1: payment-reference uniqueness: handling any request preserves the
ledger invariant that distinct orders never share a non-null payment
transaction reference (enforced by the partial UNIQUE index at write time),
and of two fully verifiable requests carrying the same payment reference
processed one after the other, the first is admitted with 201 and the
second is rejected with the 400 already-used error and no ledger change —
whichever of the two requests arrives first. -/
theorem payment_reference_uniqueness :
    (∀ env r db, ledgerInv db →
      ledgerInv (handleOrder env r db).2 ∧ txUniq (handleOrder env r db).2) ∧
    (∀ env1 r1 env2 r2 db0 k1 k2,
      gatePhase env1 r1 db0 = .ok k1 →
      gatePhase env2 r2 db0 = .ok k2 →
      k2.txHash = k1.txHash →
      (∀ o ∈ db0, o.id ≠ env1.freshId) →
      (handleOrder env1 r1 db0).1.code = 201 ∧
      (handleOrder env2 r2 (handleOrder env1 r1 db0).2).1 =
        ⟨400, .errBody "This payment transaction has already been used for an order"⟩ ∧
      (handleOrder env2 r2 (handleOrder env1 r1 db0).2).2 =
        (handleOrder env1 r1 db0).2) := by
  constructor
  · intro env r db hinv
    exact ⟨ledgerInv_handleOrder hinv,
           txUniq_of_ledgerInv (ledgerInv_handleOrder hinv)⟩
  · intro env1 r1 env2 r2 db0 k1 k2 hg1 hg2 h21 hfresh
    obtain ⟨hv1, htx1, hne1, hjs1, hns1, hjsor1, _⟩ := gatePhase_ok_pay hg1
    have htxcond : ∀ h, jsStr k1.pay.transactionHash = some h →
        (getOrderByTxHash db0 h).isSome = false := by
      intro h hh
      rw [hjs1] at hh
      cases hh
      exact hns1
    obtain ⟨hresp, o, ho, hoid, how, hotx, host⟩ := commitPhase_success hfresh htxcond
    have hho1 : handleOrder env1 r1 db0 = commitPhase env1 r1 k1 db0 :=
      handleOrder_of_gate_ok hg1
    obtain ⟨pre2, hb2, hp2, _, _⟩ := gatePhase_ok hg2
    rw [h21] at hp2
    have hhit : (getOrderByTxHash (handleOrder env1 r1 db0).2 k1.txHash).isSome = true := by
      apply getOrderByTxHash_isSome_iff.mpr
      refine ⟨o, ?_, ?_⟩
      · rw [hho1]
        exact ho
      · rw [hotx, hjs1]
    have hg2e : gatePhase env2 r2 (handleOrder env1 r1 db0).2 =
        .error ⟨400, .errBody "This payment transaction has already been used for an order"⟩ :=
      gatePhase_hit hb2 hp2 hhit
    refine ⟨?_, ?_, ?_⟩
    · rw [hho1, hresp]
    · rw [handleOrder_of_gate_error hg2e]
    · rw [handleOrder_of_gate_error hg2e]

/-- Witness for C1 at the fixtures: two identical fixture requests carrying
the same settled reference, processed sequentially on an empty ledger. -/
theorem payment_reference_uniqueness_witness :
    (handleOrder fixEnv fixReq []).1.code = 201 ∧
    (handleOrder fixEnv2 fixReq (handleOrder fixEnv fixReq []).2).1 =
      ⟨400, .errBody "This payment transaction has already been used for an order"⟩ ∧
    (handleOrder fixEnv2 fixReq (handleOrder fixEnv fixReq []).2).2 =
      (handleOrder fixEnv fixReq []).2 :=
  payment_reference_uniqueness.2 fixEnv fixReq fixEnv2 fixReq [] fixReady fixReady
    (by with_unfolding_all rfl) (by with_unfolding_all rfl) rfl
    (by intro o ho; cases ho)

/-- C2 counterexample: two fixture requests with the same payment reference
interleaved at the await points the route suspends on both pass the replay
pre-check against the same snapshot; the loser's create then hits the
uniqueness constraint, persists nothing (only the winner's row exists), and
the caller is answered with the generic 500 Order creation failed — not
with the 400 already-consumed error the claim requires. -/
theorem create_conflict_surfaced_as_500_cex :
    (raceSchedule fixEnv fixReq fixEnv2 fixReq []).2.1 =
      ⟨500, .errBody "Order creation failed"⟩ ∧
    ((⟨500, .errBody "Order creation failed"⟩ : HResp) ≠
      ⟨400, .errBody "This payment transaction has already been used for an order"⟩) ∧
    (raceSchedule fixEnv fixReq fixEnv2 fixReq []).2.2.map OrderRow.id = ["order-1"] := by
  refine ⟨by with_unfolding_all rfl, by decide, by with_unfolding_all rfl⟩

/-- C2 amended: create fails atomically on the uniqueness constraint — the
INSERT persists nothing and the route's ledger is unchanged — but the
thrown constraint violation is caught by the route's catch-all and
surfaced to the caller as the generic 500 Order creation failed; the
already-used 400 error is produced only by the replay pre-check that runs
before commit. -/
theorem create_conflict_atomic_but_generic_500 :
    (∀ db fid d h, jsStr d.paymentTxHash = some h → (∃ o ∈ db, o.txHash = some h) →
      createOrder db fid d = .error .constraintViolation) ∧
    (∀ env r k db, createOrder db env.freshId (commitDraft r k) = .error .constraintViolation →
      commitPhase env r k db = (⟨500, .errBody "Order creation failed"⟩, db)) ∧
    (∀ env r db pre h, beforeReplay env r = .ok pre → pre.ptx = some h →
      (getOrderByTxHash db h).isSome = true →
      handleOrder env r db =
        (⟨400, .errBody "This payment transaction has already been used for an order"⟩, db)) := by
  refine ⟨?_, ?_, ?_⟩
  · intro db fid d h hjs hex
    exact createOrder_error_of_tx hjs hex
  · intro env r k db hc
    simp only [commitPhase, hc]
  · intro env r db pre h hb hp hs
    exact handleOrder_of_gate_error (gatePhase_hit hb hp hs)

/-- Witness for C2: the loser's commit phase against the ledger already
holding the winner's row answers the generic 500 and leaves the ledger
unchanged. -/
theorem create_conflict_atomic_but_generic_500_witness :
    commitPhase fixEnv2 fixReq fixReady (handleOrder fixEnv fixReq []).2 =
      (⟨500, .errBody "Order creation failed"⟩, (handleOrder fixEnv fixReq []).2) :=
  create_conflict_atomic_but_generic_500.2.1 fixEnv2 fixReq fixReady
    (handleOrder fixEnv fixReq []).2 (by with_unfolding_all rfl)

/-- C3: the committed order's wallet always equals the payer address the
payment verifier extracted from the transfer event's sender topic: the 201
body echoes it, the created row carries it, every row of the resulting
ledger bearing the response's order id carries it, and whenever it differs
from the client-declared wallet, no such row carries the client-declared
wallet. -/
theorem committed_wallet_is_verifier_derived :
    ∀ env r db c, (handleOrder env r db).1.body = .createdBody c →
    ∃ receipt log,
      env.receipts ((jsOrStr r.paymentTxHash r.headerPaymentTx).getD "") = some receipt ∧
      receipt.logs.find? isClawyardTransfer = some log ∧
      c.payment.payFrom = topicAddr ((log.topics[1]?).getD "") ∧
      (∃ o ∈ (handleOrder env r db).2, o.id = c.orderId ∧
        o.wallet = topicAddr ((log.topics[1]?).getD "")) ∧
      (∀ o ∈ (handleOrder env r db).2, o.id = c.orderId →
        o.wallet = topicAddr ((log.topics[1]?).getD "")) ∧
      (∀ w o, jsOrStr r.payerWallet r.headerWallet = some w →
        topicAddr ((log.topics[1]?).getD "") ≠ w →
        o ∈ (handleOrder env r db).2 → o.id = c.orderId → o.wallet ≠ w) := by
  intro env r db c hc
  obtain ⟨k, hg, hho, hfresh, hdb, hceq⟩ := handleOrder_created hc
  obtain ⟨hv, htx, hne, hjs, hns, hjsor, receipt, log, hr, hsu, hl, hpf⟩ :=
    gatePhase_ok_pay hg
  have hgd : (jsOrStr r.paymentTxHash r.headerPaymentTx).getD "" = k.txHash := by
    rw [hjsor]
    rfl
  have hwallet : (commitDraft r k).wallet = topicAddr ((log.topics[1]?).getD "") := by
    show k.pay.payFrom.getD "" = _
    rw [hpf]
    rfl
  have hmem0 : newOrderRow env.freshId (commitDraft r k)
      ∈ db ++ [newOrderRow env.freshId (commitDraft r k)] := by simp
  have huniv : ∀ o ∈ (handleOrder env r db).2, o.id = c.orderId →
      o.wallet = topicAddr ((log.topics[1]?).getD "") := by
    intro o ho hoid2
    rw [hho, hdb] at ho
    obtain ⟨oA, hoA, hidA, hwA, _⟩ := afterEas_mem_inv ho
    obtain ⟨oB, hoB, hidB, hwB, _⟩ := afterPrintful_mem_inv hoA
    rcases List.mem_append.mp hoB with hoBdb | hoBnew
    · exfalso
      apply hfresh oB hoBdb
      rw [← hidB, ← hidA, hoid2, hceq]
    · simp only [List.mem_singleton] at hoBnew
      subst hoBnew
      rw [hwA, hwB]
      exact hwallet
  refine ⟨receipt, log, ?_, hl, ?_, ?_, huniv, ?_⟩
  · rw [hgd]
    exact hr
  · rw [hceq]
    show k.pay.payFrom.getD "" = _
    rw [hpf]
    rfl
  · obtain ⟨o1, ho1, hid1, htx1, hw1, _⟩ := afterPrintful_track env.freshId hmem0
    obtain ⟨o2, ho2, hid2, htx2, hw2, _⟩ := afterEas_track env.freshId ho1
    refine ⟨o2, ?_, ?_, ?_⟩
    · rw [hho, hdb]
      exact ho2
    · rw [hid2, hid1, hceq]
      rfl
    · rw [hw2, hw1]
      exact hwallet
  · intro w o hjw hnew ho hoid2
    rw [huniv o ho hoid2]
    exact hnew

/-- Witness for C3 at the fixtures: the committed wallet is the transfer
sender address, which differs from the claimed wallet. -/
theorem committed_wallet_is_verifier_derived_witness :
    ∃ receipt log,
      fixEnv.receipts ((jsOrStr fixReq.paymentTxHash fixReq.headerPaymentTx).getD "")
        = some receipt ∧
      receipt.logs.find? isClawyardTransfer = some log ∧
      fixCreated.payment.payFrom = topicAddr ((log.topics[1]?).getD "") ∧
      (∃ o ∈ (handleOrder fixEnv fixReq []).2, o.id = fixCreated.orderId ∧
        o.wallet = topicAddr ((log.topics[1]?).getD "")) ∧
      (∀ o ∈ (handleOrder fixEnv fixReq []).2, o.id = fixCreated.orderId →
        o.wallet = topicAddr ((log.topics[1]?).getD "")) ∧
      (∀ w o, jsOrStr fixReq.payerWallet fixReq.headerWallet = some w →
        topicAddr ((log.topics[1]?).getD "") ≠ w →
        o ∈ (handleOrder fixEnv fixReq []).2 → o.id = fixCreated.orderId → o.wallet ≠ w) :=
  committed_wallet_is_verifier_derived fixEnv fixReq [] fixCreated
    (by with_unfolding_all rfl)

/-- C9: the order total is computed deterministically as the sum over items
of catalog unit price times quantity plus the caller-declared shipping
cost, exactly at two decimals: item totals are price times quantity, the
pipeline total is the item sum plus shippingCost, two-decimal inputs yield
a two-decimal total (no rounding error accumulates), and for a catalog
item priced 4.20 with declared shipping 3.72 the computed total is exactly
7.92, rendered as the string 7.92. -/
theorem order_total_pricing :
    (∀ catalog reqs items tot, computeItems catalog reqs = .ok (items, tot) →
      tot = (items.map OrderItem.total).sum ∧
      ∀ it ∈ items, it.total = it.price * (it.qty : ℚ)) ∧
    (∀ env r db k, gatePhase env r db = .ok k →
      ∃ items tot, computeItems env.catalog r.stickers = .ok (items, tot) ∧
        k.items = items ∧ k.finalTotal = tot + r.shippingCost) ∧
    (∀ catalog reqs items tot, (∀ s ∈ catalog, twoDecimal s.basePrice) →
      computeItems catalog reqs = .ok (items, tot) → twoDecimal tot) ∧
    (∀ r : OrderReq, validateOrderOk r = true → twoDecimal r.shippingCost) ∧
    computeItems [fixSticker] [{ id := "heartbeat-ok", qty := 1 }] = .ok ([fixItem], 4.20) ∧
    ((4.20 : ℚ) + 3.72 = 7.92) ∧
    toFixed2 (7.92 : ℚ) = "7.92" := by
  refine ⟨?_, ?_, ?_, ?_, ?_, ?_, ?_⟩
  · intro catalog reqs
    induction reqs with
    | nil =>
      intro items tot hc
      simp only [computeItems] at hc
      cases hc
      exact ⟨rfl, by intro it hit; cases hit⟩
    | cons it rest ih =>
      intro items tot hc
      simp only [computeItems] at hc
      cases hf : catalog.find? (fun s => s.id == it.id) with
      | none =>
        simp only [hf] at hc
        cases hc
      | some st =>
        simp only [hf] at hc
        by_cases hact : st.active = false
        · rw [if_pos hact] at hc
          cases hc
        · rw [if_neg hact] at hc
          cases hrec : computeItems catalog rest with
          | error e =>
            simp only [hrec] at hc
            cases hc
          | ok pr =>
            obtain ⟨items0, tot0⟩ := pr
            simp only [hrec] at hc
            cases hc
            obtain ⟨hsum, hall⟩ := ih items0 tot0 hrec
            constructor
            · simp only [List.map_cons, List.sum_cons]
              rw [← hsum]
            · intro x hx
              cases hx with
              | head => rfl
              | tail _ hx2 => exact hall x hx2
  · intro env r db k hg
    obtain ⟨pre, hb, hp, hns, ha⟩ := gatePhase_ok hg
    obtain ⟨items, tot, hcomp, hkeq, hv⟩ := afterReplay_ok ha
    exact ⟨items, tot, hcomp, by rw [hkeq], by rw [hkeq]⟩
  · intro catalog reqs
    induction reqs with
    | nil =>
      intro items tot hcat hc
      simp only [computeItems] at hc
      cases hc
      exact ⟨0, by norm_num⟩
    | cons it rest ih =>
      intro items tot hcat hc
      simp only [computeItems] at hc
      cases hf : catalog.find? (fun s => s.id == it.id) with
      | none =>
        simp only [hf] at hc
        cases hc
      | some st =>
        simp only [hf] at hc
        by_cases hact : st.active = false
        · rw [if_pos hact] at hc
          cases hc
        · rw [if_neg hact] at hc
          cases hrec : computeItems catalog rest with
          | error e =>
            simp only [hrec] at hc
            cases hc
          | ok pr =>
            obtain ⟨items0, tot0⟩ := pr
            simp only [hrec] at hc
            cases hc
            obtain ⟨z0, hz0⟩ := ih items0 tot0 hcat hrec
            obtain ⟨z1, hz1⟩ := hcat st (List.mem_of_find?_eq_some hf)
            refine ⟨z1 * it.qty + z0, ?_⟩
            have hexp : (st.basePrice * (it.qty : ℚ) + tot0) * 100
                = (st.basePrice * 100) * (it.qty : ℚ) + tot0 * 100 := by ring
            rw [hexp, hz1, hz0]
            push_cast
            ring
  · intro r hval
    simp only [validateOrderOk, Bool.and_eq_true, decide_eq_true_eq] at hval
    obtain ⟨⟨⟨⟨⟨⟨⟨⟨hc1, hc2⟩, hc3⟩, hc4⟩, hc5⟩, hc6⟩, hc7⟩, hc8⟩, hc9⟩ := hval
    exact ⟨(r.shippingCost * 100).num, ((Rat.den_eq_one_iff _).mp hc5).symm⟩
  · with_unfolding_all rfl
  · with_unfolding_all rfl
  · with_unfolding_all rfl

/-- Witness for C9 at the fixture catalog: one sticker priced 4.20, one
unit. -/
theorem order_total_pricing_witness :
    (4.20 : ℚ) = ([fixItem].map OrderItem.total).sum ∧
    ∀ it ∈ [fixItem], it.total = it.price * (it.qty : ℚ) :=
  order_total_pricing.1 [fixSticker] [{ id := "heartbeat-ok", qty := 1 }]
    [fixItem] 4.20 (by with_unfolding_all rfl)

end Clawyard
